import Mathlib

/-!
Verification development for the ollama-api-connector gateway (`server.js`).

The definitions below are a shallow embedding of the request/response
translation engine and the streaming re-framing state machine of
`server.js`.  JavaScript-specific conventions are modelled explicitly:

* absent object fields are `Option.none`;
* JS truthiness on strings (`s` is truthy iff non-empty) and on numbers
  (`n` is truthy iff non-zero) is made explicit at each use site;
* JS numbers appearing in generation options are modelled as `Rat`
  (the claims only concern presence/absence, zero tests and `x - 1`);
* `String.prototype.split('\n')`, `startsWith` and `substring` are
  modelled by executable functions on the character list of a `String`;
* `JSON.parse` is an external library routine, not repository code: the
  streaming machine is parameterized by an abstract
  `parse : String → Option UpResponse`; concrete runs instantiate it
  with a finite stand-in mapping specific payload strings to their
  parsed values;
* opaque pass-through JSON payloads (tool calls, upstream error bodies,
  `tool_choice`, `response_format`) are modelled by their serialized
  `String` form, since the code copies them verbatim;
* each `res.write(...)` call of the streaming handlers is recorded, in
  order, as one element of a `writes : List WriteEv` trace; the terminal
  marker write `'[DONE]\n'` is the `WriteEv.doneMark` element.
-/

/-- One normalized role/content message (output of the request normalizer,
`server.js` lines 62-138). -/
structure Message where
  role : String
  content : String
deriving DecidableEq, Repr

/-- A raw entry of the `messages` / `history` arrays of an inbound request
body; either field may be absent. -/
structure RawMessage where
  role : Option String := none
  content : Option String := none
deriving DecidableEq, Repr

/-- The recognized members of `request.options` (`server.js` lines 144-151).
Numeric options are `Rat`, opaque ones are serialized strings. -/
structure GenOptions where
  temperature : Option Rat := none
  num_predict : Option Rat := none
  top_p : Option Rat := none
  repeat_penalty : Option Rat := none
  presence_penalty : Option Rat := none
  tool_choice : Option String := none
  response_format : Option String := none
deriving DecidableEq, Repr

/-- An inbound Ollama-shaped request body (`req.body` of `/api/chat` and
`/api/generate`). -/
structure OllamaRequest where
  model : Option String := none
  messages : Option (List RawMessage) := none
  system : Option String := none
  prompt : Option String := none
  history : Option (List RawMessage) := none
  options : Option GenOptions := none
  stream : Option Bool := none
  tools : Option (List String) := none
deriving DecidableEq, Repr

/-- JS `x || d` for an optional string `x`: the default is used when `x` is
absent or empty (falsy). -/
def jsOrStr (o : Option String) (d : String) : String :=
  match o with
  | some s => if s ≠ "" then s else d
  | none => d

/-- JS `x || undefined` for an optional string: an absent or falsy (empty)
value becomes absent. -/
def jsStrOrNone (o : Option String) : Option String :=
  match o with
  | some s => if s ≠ "" then some s else none
  | none => none

/-- JS `x || undefined` for an optional number: an absent or falsy (zero)
value becomes absent. -/
def jsNumOrNone (o : Option Rat) : Option Rat :=
  match o with
  | some v => if v ≠ 0 then some v else none
  | none => none

/-- JS `s.trim()`: strip leading and trailing whitespace, modelled on the
character list (core `String.trim` does not reduce in the kernel). -/
def strTrim (s : String) : String :=
  ⟨((s.data.dropWhile Char.isWhitespace).reverse.dropWhile Char.isWhitespace).reverse⟩

/-- JS `s.startsWith(p)`: prefix test, modelled on the character list. -/
def strStarts (s p : String) : Bool :=
  p.data.isPrefixOf s.data

/-- JS `s.substring(n)` / Lean `String.drop` for ASCII content: drop the
first `n` characters. -/
def strDrop (s : String) (n : Nat) : String :=
  ⟨s.data.drop n⟩

/-- JS `s.includes(p)`: substring occurrence test. -/
def strHas (s p : String) : Bool :=
  (List.range (s.data.length + 1)).any fun i => p.data.isPrefixOf (s.data.drop i)

/-- Auxiliary for `splitLines`: accumulates the current line (in order). -/
def splitLinesAux : List Char → List Char → List String
  | [], acc => [⟨acc⟩]
  | c :: cs, acc =>
    if c = '\n' then ⟨acc⟩ :: splitLinesAux cs []
    else splitLinesAux cs (acc ++ [c])

/-- JS `s.split('\n')`: always returns at least one (possibly empty) piece. -/
def splitLines (s : String) : List String :=
  splitLinesAux s.data []

/-- Filter applied to an explicit `messages` array (`server.js` lines 66-75):
an entry is kept verbatim iff `item.role && item.content` is truthy, i.e. both
fields are present and non-empty. -/
def msgFilter (items : List RawMessage) : List Message :=
  items.filterMap fun it =>
    match it.role, it.content with
    | some r, some c => if r ≠ "" ∧ c ≠ "" then some ⟨r, c⟩ else none
    | _, _ => none

/-- Filter applied to a `history` array (`server.js` lines 125-134): entries
whose `role` is exactly `user` or `assistant` are kept, `content` defaulted
to the empty string. -/
def historyFilter (items : List RawMessage) : List Message :=
  items.filterMap fun it =>
    if it.role = some "user" ∨ it.role = some "assistant"
    then some ⟨it.role.getD "", it.content.getD ""⟩
    else none

/-- State of the delimited-prompt tag parser (`server.js` lines 88-121):
`currentRole`, `currentContent` and the accumulated output. -/
structure TagState where
  role : Option String
  content : String
  msgs : List Message
deriving DecidableEq, Repr

/-- One line of the delimited-prompt tag parser loop (`server.js`
lines 93-116), translated branch by branch. -/
def tagStep (st : TagState) (line : String) : TagState :=
  if strStarts line "<user>" then
    let msgs := if st.role.isSome ∧ st.content ≠ ""
      then st.msgs ++ [⟨st.role.getD "", strTrim st.content⟩] else st.msgs
    { role := some "user", content := strDrop line 6, msgs := msgs }
  else if strStarts line "<assistant>" then
    let msgs := if st.role.isSome ∧ st.content ≠ ""
      then st.msgs ++ [⟨st.role.getD "", strTrim st.content⟩] else st.msgs
    { role := some "assistant", content := strDrop line 11, msgs := msgs }
  else if line = "</user>" ∨ line = "</assistant>" then
    if st.content ≠ ""
    then { role := st.role, content := "", msgs := st.msgs ++ [⟨st.role.getD "", strTrim st.content⟩] }
    else st
  else if st.content ≠ "" then
    { st with content := st.content ++ "\n" ++ line }
  else st

/-- Prompt tag parser over an already-split line list, including the final
flush of `server.js` lines 118-120. -/
def parseTaggedLines (lines : List String) : List Message :=
  let st := lines.foldl tagStep ⟨none, "", []⟩
  if st.role.isSome ∧ st.content ≠ ""
  then st.msgs ++ [⟨st.role.getD "", strTrim st.content⟩]
  else st.msgs

/-- The delimited-prompt parser applied to a raw prompt string
(`server.js` line 89: `request.prompt.split('\n')`). -/
def parseTaggedPrompt (p : String) : List Message :=
  parseTaggedLines (splitLines p)

/-- The request normalizer (`server.js` lines 62-138): explicit `messages`
array first, then `system`, then `prompt` (plain or tag-delimited), then
`history`, finally a synthesized empty user message. Each later source is
consulted only when all earlier ones produced zero messages. -/
def normalizeMessages (req : OllamaRequest) : List Message :=
  let m1 := match req.messages with
    | some items => msgFilter items
    | none => []
  let m2 := if m1.isEmpty then
      match req.system with
      | some s => if s ≠ "" then [⟨"system", s⟩] else []
      | none => []
    else m1
  let m3 := if m2.isEmpty then
      match req.prompt with
      | some p =>
        if p ≠ "" then
          if ¬ (strHas p "<user>" ∨ strHas p "<assistant>")
          then [⟨"user", p⟩]
          else parseTaggedPrompt p
        else []
      | none => []
    else m2
  let m4 := if m3.isEmpty then
      match req.history with
      | some h => historyFilter h
      | none => []
    else m3
  if m4.isEmpty then [⟨"user", ""⟩] else m4

/-- The outbound Target-Protocol request body (`server.js` lines 140-152).
`none` models a physically omitted field (`undefined` is dropped by
`JSON.stringify`). -/
structure OpenAIRequest where
  model : String
  messages : List Message
  stream : Bool
  temperature : Option Rat
  max_tokens : Option Rat
  top_p : Option Rat
  frequency_penalty : Option Rat
  presence_penalty : Option Rat
  tools : Option (List String)
  tool_choice : Option String
  response_format : Option String
deriving DecidableEq, Repr

/-- The request translator `translateOllamaToOpenAI` (`server.js`
lines 62-155): normalization followed by the option projection. -/
def translateOllamaToOpenAI (req : OllamaRequest) : OpenAIRequest :=
  { model := jsOrStr req.model "gpt-3.5-turbo"
  , messages := normalizeMessages req
  , stream := req.stream.getD false
  , temperature := req.options.bind fun o => o.temperature
  , max_tokens := req.options.bind fun o => o.num_predict
  , top_p := req.options.bind fun o => o.top_p
  , frequency_penalty :=
      match req.options.bind fun o => o.repeat_penalty with
      | some rp => if rp ≠ 0 then some (rp - 1) else none
      | none => none
  , presence_penalty := jsNumOrNone (req.options.bind fun o => o.presence_penalty)
  , tools := req.tools
  , tool_choice := jsStrOrNone (req.options.bind fun o => o.tool_choice)
  , response_format := jsStrOrNone (req.options.bind fun o => o.response_format) }

/-- The `/api/chat` streaming-mode decision (`server.js` lines 337-342):
the raw request's `stream` flag or the `Accept` header turn streaming on,
then an absent or empty raw `messages` array forces it off. -/
def isStreamingDecision (req : OllamaRequest) (accept : String) : Bool :=
  let s := req.stream.getD false || strHas accept "text/event-stream"
  if s && (req.messages.isNone || (req.messages.getD []).isEmpty) then false else s

/-- The `usage` block of an upstream response; each token count may be
absent (the code applies `|| 0`). -/
structure UsageBlock where
  prompt_tokens : Option Nat := none
  completion_tokens : Option Nat := none
  total_tokens : Option Nat := none
deriving DecidableEq, Repr

/-- The llama.cpp `timings` block of an upstream response. -/
structure TimingsBlock where
  cache_n : Option Nat := none
  predicted_n : Option Nat := none
  total_duration : Option Nat := none
  load_duration : Option Nat := none
  prompt_eval_duration : Option Nat := none
  eval_duration : Option Nat := none
deriving DecidableEq, Repr

/-- The `message` object of a non-streaming upstream choice; `role` and
`content` may each be absent. -/
structure UpMessage where
  role : Option String := none
  content : Option String := none
deriving DecidableEq, Repr

/-- The `delta` object of a streaming upstream choice. Tool calls are
opaque serialized payloads copied verbatim. -/
structure UpDelta where
  role : Option String := none
  content : Option String := none
  tool_calls : Option (List String) := none
deriving DecidableEq, Repr

/-- One element of the upstream `choices` array. -/
structure UpChoice where
  message : Option UpMessage := none
  delta : Option UpDelta := none
  finish_reason : Option String := none
deriving DecidableEq, Repr

/-- A parsed upstream (Target-Protocol) response or stream record.
`choices = none` models an absent `choices` field; `error` carries the
serialized upstream error value when present. -/
structure UpResponse where
  model : String := ""
  created : Nat := 0
  error : Option String := none
  choices : Option (List UpChoice) := none
  usage : Option UsageBlock := none
  timings : Option TimingsBlock := none
deriving DecidableEq, Repr

/-- The message object of a translated non-streaming chat reply; the code
copies `choices[0].message.role/content` through, which may be absent. -/
structure OllamaChatMessage where
  role : Option String
  content : Option String
deriving DecidableEq, Repr

/-- A translated non-streaming `/api/chat` reply (`server.js`
lines 158-204). `created_at_ms` carries `response.created * 1000`, the
epoch milliseconds rendered as ISO-8601 by the code. -/
structure OllamaChatResponse where
  model : String
  created_at_ms : Nat
  message : OllamaChatMessage
  done : Bool
  prompt_eval_count : Nat
  eval_count : Nat
  total_tokens : Nat
deriving DecidableEq, Repr

/-- A translated non-streaming `/api/generate` reply (`server.js`
lines 207-244). -/
structure OllamaGenResponse where
  model : String
  created_at_ms : Nat
  response : Option String
  done : Bool
  prompt_eval_count : Nat
  eval_count : Nat
  total_tokens : Nat
deriving DecidableEq, Repr

/-- `translateOpenAIToOllamaChat` (`server.js` lines 158-204).  The JS
code dereferences `response.choices[0].message` unconditionally; the
embedding is total, returning `none` exactly where the JS would throw. -/
def translateOpenAIToOllamaChat (r : UpResponse) : Option OllamaChatResponse := do
  let ch ← r.choices.bind List.head?
  let msg ← ch.message
  let base : OllamaChatMessage := ⟨msg.role, msg.content⟩
  let done := ch.finish_reason = some "stop"
  match r.usage with
  | some u =>
    return { model := r.model, created_at_ms := r.created * 1000, message := base, done := done
           , prompt_eval_count := u.prompt_tokens.getD 0
           , eval_count := u.completion_tokens.getD 0
           , total_tokens := u.total_tokens.getD 0 }
  | none =>
    match r.timings with
    | some t =>
      if t.cache_n.isSome then
        return { model := r.model, created_at_ms := r.created * 1000, message := base, done := done
               , prompt_eval_count := t.cache_n.getD 0
               , eval_count := t.predicted_n.getD 0
               , total_tokens := t.cache_n.getD 0 + t.predicted_n.getD 0 }
      else
        return { model := r.model, created_at_ms := r.created * 1000, message := base, done := done
               , prompt_eval_count := 0, eval_count := 0, total_tokens := 0 }
    | none =>
      return { model := r.model, created_at_ms := r.created * 1000, message := base, done := done
             , prompt_eval_count := 0, eval_count := 0, total_tokens := 0 }

/-- `translateOpenAIToOllamaGenerate` (`server.js` lines 207-244). -/
def translateOpenAIToOllamaGenerate (r : UpResponse) : Option OllamaGenResponse := do
  let ch ← r.choices.bind List.head?
  let msg ← ch.message
  let done := ch.finish_reason = some "stop"
  match r.usage with
  | some u =>
    return { model := r.model, created_at_ms := r.created * 1000, response := msg.content, done := done
           , prompt_eval_count := u.prompt_tokens.getD 0
           , eval_count := u.completion_tokens.getD 0
           , total_tokens := u.total_tokens.getD 0 }
  | none =>
    match r.timings with
    | some t =>
      if t.cache_n.isSome then
        return { model := r.model, created_at_ms := r.created * 1000, response := msg.content, done := done
               , prompt_eval_count := t.cache_n.getD 0
               , eval_count := t.predicted_n.getD 0
               , total_tokens := t.cache_n.getD 0 + t.predicted_n.getD 0 }
      else
        return { model := r.model, created_at_ms := r.created * 1000, response := msg.content, done := done
               , prompt_eval_count := 0, eval_count := 0, total_tokens := 0 }
    | none =>
      return { model := r.model, created_at_ms := r.created * 1000, response := msg.content, done := done
             , prompt_eval_count := 0, eval_count := 0, total_tokens := 0 }

/-- The message object of a translated streaming frame (`server.js`
lines 249-257): role and content are defaulted, tool calls attached only
when present and non-empty. -/
structure StreamMsg where
  role : String
  content : String
  tool_calls : Option (List String) := none
deriving DecidableEq, Repr

/-- The translated per-delta object built by
`translateOpenAIStreamToOllamaChat` (`server.js` lines 247-297).
`created_at` is wall-clock time (`new Date()`), passed in as `now`.
`hasContext` models the presence of the `context: []` placeholder. -/
structure StreamOut where
  model : String
  created_at : Nat
  message : StreamMsg
  done : Bool
  prompt_eval_count : Option Nat := none
  eval_count : Option Nat := none
  total_tokens : Option Nat := none
  done_reason : Option String := none
  hasContext : Bool := false
  total_duration : Option Nat := none
  load_duration : Option Nat := none
  prompt_eval_duration : Option Nat := none
  eval_duration : Option Nat := none
deriving DecidableEq, Repr

/-- `translateOpenAIStreamToOllamaChat` (`server.js` lines 247-297). The
JS code dereferences `response.choices[0]` unconditionally (the `delta`
itself is defaulted with `|| {}`); the embedding returns `none` exactly
where the JS would throw. -/
def translateOpenAIStreamToOllamaChat (now : Nat) (r : UpResponse) : Option StreamOut := do
  let ch ← r.choices.bind List.head?
  let delta := ch.delta.getD {}
  let msg : StreamMsg :=
    { role := jsOrStr delta.role "assistant"
    , content := delta.content.getD ""
    , tool_calls :=
        match delta.tool_calls with
        | some ts => if ts.length > 0 then some ts else none
        | none => none }
  let isDone := match ch.finish_reason with
    | some s => s ≠ ""
    | none => false
  let counts : Option Nat × Option Nat × Option Nat :=
    match r.usage with
    | some u => (some (u.prompt_tokens.getD 0), some (u.completion_tokens.getD 0), some (u.total_tokens.getD 0))
    | none =>
      match r.timings with
      | some t =>
        if t.cache_n.isSome
        then (some (t.cache_n.getD 0), some (t.predicted_n.getD 0), some (t.cache_n.getD 0 + t.predicted_n.getD 0))
        else (none, none, none)
      | none => (none, none, none)
  let base : StreamOut :=
    { model := r.model, created_at := now, message := msg, done := isDone
    , prompt_eval_count := counts.1, eval_count := counts.2.1, total_tokens := counts.2.2 }
  if isDone then
    match r.timings with
    | some t =>
      return { base with
               done_reason := some "stop",
               hasContext := true,
               total_duration := some (t.total_duration.getD 0),
               load_duration := some (t.load_duration.getD 0),
               prompt_eval_duration := some (t.prompt_eval_duration.getD 0),
               eval_duration := some (t.eval_duration.getD 0) }
    | none =>
      return { base with done_reason := some "stop", hasContext := true }
  else
    return base

/-- One line-delimited JSON frame written to the client during streaming.
`none` fields model keys whose value is `undefined` (dropped by
`JSON.stringify`); the end-of-stream residual path writes frames carrying
only the first four keys, so all optional fields stay `none` there. -/
structure Frame where
  model : String
  created_at : Nat
  message : StreamMsg
  done : Bool
  prompt_eval_count : Option Nat := none
  eval_count : Option Nat := none
  total_tokens : Option Nat := none
  done_reason : Option String := none
  hasContext : Bool := false
  total_duration : Option Nat := none
  load_duration : Option Nat := none
  prompt_eval_duration : Option Nat := none
  eval_duration : Option Nat := none
deriving DecidableEq, Repr

/-- One `res.write` of the streaming `/api/chat` handler: a JSON frame, an
upstream error object (`{error: ...}` with the serialized upstream value),
the fixed parse-error object, a stream-error object, or the terminal
marker line `'[DONE]\n'`. -/
inductive WriteEv where
  | frame (f : Frame)
  | errUpstream (e : String)
  | errParse
  | errStream (msg : String)
  | doneMark
deriving DecidableEq, Repr

/-- Per-session mutable state of the streaming handler (`server.js`
lines 367-369) plus the ordered trace of writes made so far. -/
structure Session where
  responseBuffer : String
  firstChunk : Bool
  streamEnded : Bool
  writes : List WriteEv
deriving DecidableEq, Repr

/-- Session state before any upstream event. -/
def initSession : Session := ⟨"", true, false, []⟩

/-- The synthetic opening frame (`server.js` lines 411-419). -/
def openingFrame (od : StreamOut) : Frame :=
  { model := od.model, created_at := od.created_at
  , message := ⟨"assistant", "", none⟩, done := false
  , prompt_eval_count := od.prompt_eval_count
  , eval_count := od.eval_count
  , total_tokens := od.total_tokens }

/-- A non-terminal content frame of the data path (`server.js`
lines 424-432). -/
def contentFrame (od : StreamOut) : Frame :=
  { model := od.model, created_at := od.created_at
  , message := od.message, done := false
  , prompt_eval_count := od.prompt_eval_count
  , eval_count := od.eval_count
  , total_tokens := od.total_tokens }

/-- The terminal frame of the data path (`server.js` lines 436-450). -/
def doneFrame (od : StreamOut) : Frame :=
  { model := od.model, created_at := od.created_at
  , message := od.message, done := true
  , prompt_eval_count := od.prompt_eval_count
  , eval_count := od.eval_count
  , total_tokens := od.total_tokens
  , done_reason := od.done_reason
  , hasContext := od.hasContext
  , total_duration := od.total_duration
  , load_duration := od.load_duration
  , prompt_eval_duration := od.prompt_eval_duration
  , eval_duration := od.eval_duration }

/-- The reduced frame written by the end-of-stream residual path
(`server.js` lines 508-513): only `model`, `created_at`, `message`,
`done`. -/
def endFrame (od : StreamOut) : Frame :=
  { model := od.model, created_at := od.created_at
  , message := od.message, done := od.done }

/-- Processing of one complete line inside the `'data'` handler loop
(`server.js` lines 387-466).  The returned `Bool` is true when the JS
code executes `return`, aborting the rest of the per-chunk loop; note
that the terminal-delta branch (lines 453-458) and the parse-error catch
(lines 459-465) do NOT return, so the loop continues past them. -/
def dataLine (parse : String → Option UpResponse) (now : Nat)
    (s : Session) (line : String) : Session × Bool :=
  if ¬ strStarts line "data: " then (s, false)
  else
    let data := strDrop line 6
    if data = "[DONE]" then
      (if s.streamEnded then s
       else { s with writes := s.writes ++ [.doneMark], streamEnded := true }, true)
    else
      match parse data with
      | none =>
        ({ s with writes := s.writes ++ [.errParse, .doneMark], streamEnded := true }, false)
      | some j =>
        match j.error with
        | some e =>
          ({ s with writes := s.writes ++ [.errUpstream e, .doneMark], streamEnded := true }, true)
        | none =>
          match translateOpenAIStreamToOllamaChat now j with
          | none =>
            ({ s with writes := s.writes ++ [.errParse, .doneMark], streamEnded := true }, false)
          | some od =>
            let s1 := if s.firstChunk
              then { s with writes := s.writes ++ [.frame (openingFrame od)], firstChunk := false }
              else s
            let s2 := if od.message.content ≠ "" ∨ od.message.tool_calls.isSome
              then { s1 with writes := s1.writes ++ [.frame (contentFrame od)] }
              else s1
            let s3 := if od.done
              then { s2 with writes := s2.writes ++ [.frame (doneFrame od), .doneMark], streamEnded := true }
              else s2
            (s3, false)

/-- The per-chunk loop over complete lines, honouring early `return`. -/
def runLines (parse : String → Option UpResponse) (now : Nat) :
    Session → List String → Session
  | s, [] => s
  | s, l :: ls =>
    let r := dataLine parse now s l
    if r.2 then r.1 else runLines parse now r.1 ls

/-- The `'data'` event handler (`server.js` lines 382-468): append the
chunk to the line buffer, split on newline, retain the trailing fragment,
process the complete lines. -/
def onData (parse : String → Option UpResponse) (now : Nat)
    (s : Session) (chunk : String) : Session :=
  if s.streamEnded then s
  else
    let parts := splitLines (s.responseBuffer ++ chunk)
    let s1 := { s with responseBuffer := (parts.getLast?).getD "" }
    runLines parse now s1 parts.dropLast

/-- Processing of one residual line inside the `'end'` handler
(`server.js` lines 476-538).  Unlike the data path there is no
first-frame logic, the frame write is unconditional, and the reduced
`endFrame` shape is used; the terminal-delta and parse-error branches
again do not return. -/
def endLine (parse : String → Option UpResponse) (now : Nat)
    (s : Session) (line : String) : Session × Bool :=
  if ¬ strStarts line "data: " then (s, false)
  else
    let data := strDrop line 6
    if data = "[DONE]" then
      (if s.streamEnded then s
       else { s with writes := s.writes ++ [.doneMark], streamEnded := true }, true)
    else
      match parse data with
      | none =>
        ({ s with writes := s.writes ++ [.errParse, .doneMark], streamEnded := true }, false)
      | some j =>
        match j.error with
        | some e =>
          ({ s with writes := s.writes ++ [.errUpstream e, .doneMark], streamEnded := true }, true)
        | none =>
          match translateOpenAIStreamToOllamaChat now j with
          | none =>
            ({ s with writes := s.writes ++ [.errParse, .doneMark], streamEnded := true }, false)
          | some od =>
            let s1 := { s with writes := s.writes ++ [.frame (endFrame od)] }
            let s2 := if od.done
              then { s1 with writes := s1.writes ++ [.doneMark], streamEnded := true }
              else s1
            (s2, false)

/-- The residual-line loop of the `'end'` handler; the `Bool` records
whether a `return` aborted the handler (skipping the final fallback). -/
def runEndLines (parse : String → Option UpResponse) (now : Nat) :
    Session → List String → Session × Bool
  | s, [] => (s, false)
  | s, l :: ls =>
    let r := endLine parse now s l
    if r.2 then (r.1, true) else runEndLines parse now r.1 ls

/-- The `'end'` event handler (`server.js` lines 471-550): process any
trimmed-non-empty residual buffer as lines, then, unless a `return` fired
or the stream already ended, write the fallback terminal marker. -/
def onEnd (parse : String → Option UpResponse) (now : Nat) (s : Session) : Session :=
  if s.streamEnded then s
  else
    let r := if strTrim s.responseBuffer ≠ ""
      then runEndLines parse now s (splitLines s.responseBuffer)
      else (s, false)
    if r.2 then r.1
    else if r.1.streamEnded then r.1
    else { r.1 with writes := r.1.writes ++ [.doneMark], streamEnded := true }

/-- The `'close'` event handler (`server.js` lines 552-560). -/
def onClose (s : Session) : Session :=
  if s.streamEnded then s
  else { s with writes := s.writes ++ [.doneMark], streamEnded := true }

/-- The `'error'` event handler (`server.js` lines 562-576); the error
message is defaulted with `error.message || 'Stream error'`. -/
def onError (msg : String) (s : Session) : Session :=
  if s.streamEnded then s
  else { s with
         writes := s.writes ++ [.errStream (jsOrStr (some msg) "Stream error"), .doneMark],
         streamEnded := true }

/-- One upstream transport event delivered to the streaming handlers. -/
inductive UpEv where
  | chunk (s : String)
  | endEv
  | closeEv
  | errorEv (msg : String)
deriving DecidableEq, Repr

/-- Dispatch one upstream event to its handler. -/
def stepEv (parse : String → Option UpResponse) (now : Nat)
    (s : Session) : UpEv → Session
  | .chunk c => onData parse now s c
  | .endEv => onEnd parse now s
  | .closeEv => onClose s
  | .errorEv m => onError m s

/-- A whole streaming session: fold the upstream event sequence over the
handlers, starting from the initial state. -/
def runSession (parse : String → Option UpResponse) (now : Nat)
    (evs : List UpEv) : Session :=
  evs.foldl (stepEv parse now) initSession

/-- A write is a synthetic opening frame: an empty-content, no-tool-call
frame with `done = false` (the shape built at `server.js` lines 411-419). -/
def isOpeningWrite : WriteEv → Bool
  | .frame f => f.message.content = "" && f.message.tool_calls = none && f.done = false
  | _ => false

/-- A write is a content frame: a frame carrying non-empty content or a
tool-call payload. -/
def isContentWrite : WriteEv → Bool
  | .frame f => f.message.content ≠ "" || f.message.tool_calls.isSome
  | _ => false

/-- Every prefix of the write trace that contains a content frame also
contains an opening frame, i.e. an opening frame precedes every content
frame. -/
def OpeningFirst (ws : List WriteEv) : Prop :=
  ∀ n, (ws.take n).any isContentWrite = true → (ws.take n).any isOpeningWrite = true

/-- A concrete upstream delta record carrying content `a` and
`finish_reason: "stop"`. -/
def finDeltaA : UpResponse :=
  { model := "m"
  , choices := some [{ delta := some { content := some "a" }, finish_reason := some "stop" }] }

/-- A concrete upstream delta record carrying content `b` and
`finish_reason: "stop"`. -/
def finDeltaB : UpResponse :=
  { model := "m"
  , choices := some [{ delta := some { content := some "b" }, finish_reason := some "stop" }] }

/-- A concrete upstream delta record carrying content `b` and no finish
reason. -/
def textDeltaB : UpResponse :=
  { model := "m"
  , choices := some [{ delta := some { content := some "b" } }] }

/-- Concrete stand-in for `JSON.parse` used by the counterexample runs:
the payload names `finA`, `finB`, `textB` abbreviate the serialized JSON
of the three records above; everything else fails to parse. -/
def parseCex : String → Option UpResponse := fun s =>
  if s = "finA" then some finDeltaA
  else if s = "finB" then some finDeltaB
  else if s = "textB" then some textDeltaB
  else none

/-- C1. The spec claims every streaming session writes the terminal
marker `'[DONE]\n'` exactly once, as the last write.  The code violates
this: the terminal-delta branch of the `'data'` handler sets
`streamEnded` but does not leave the per-chunk loop (`server.js`
lines 453-458 lack the `return` that every sibling terminating branch
has), so a single chunk that carries a second complete record after a
finish-reason record is still processed, and here yields a second
terminal marker after `res.end()`. -/
theorem c1_double_marker_eval :
    (runSession parseCex 7 [.chunk "data: finA\ndata: finB\n"]).writes.count WriteEv.doneMark = 2 := by
  decide

/-- C3. The spec claims that after a finish-reason delta the session
enters the terminated state and all further input is ignored.  On a
chunk carrying a content record after the finish record, the code keeps
processing: the trace holds exactly one marker but a further content
frame is written after it, so the marker is not the last write. -/
theorem c3_input_after_terminal_eval :
    (runSession parseCex 7 [.chunk "data: finA\ndata: textB\n"]).writes.count WriteEv.doneMark = 1 ∧
    (runSession parseCex 7 [.chunk "data: finA\ndata: textB\n"]).writes.getLast? =
      some (WriteEv.frame (contentFrame
        { model := "m", created_at := 7, message := ⟨"assistant", "b", none⟩, done := false })) := by
  constructor
  · decide
  · decide

/-- C2 counterexample. A well-formed delta whose record reaches the
translator only through the residual line buffer at end-of-stream (the
chunk lacks a trailing newline) is written by the `'end'` handler
(`server.js` lines 506-515), which has no first-frame logic: the first
write of the session is already a content frame and no opening frame is
ever emitted, refuting the claim at this concrete session. -/
theorem c2_counterexample :
    ¬ OpeningFirst (runSession parseCex 7 [.chunk "data: textB", .endEv]).writes := by
  intro h
  exact absurd (h 1 (by decide)) (by decide)

/-- Number of synthetic opening frames in a write trace. -/
def opCount (ws : List WriteEv) : Nat := ws.countP isOpeningWrite

/-- Invariant tying the `firstChunk` flag to the write trace: while the
flag is up no opening and no content frame has been written; once it is
down exactly one opening frame has been written; and an opening frame
precedes every content frame. -/
def WInv (fc : Bool) (ws : List WriteEv) : Prop :=
  (fc = true → ws.any isOpeningWrite = false ∧ ws.any isContentWrite = false)
  ∧ (fc = false → opCount ws = 1)
  ∧ OpeningFirst ws

theorem any_of_opCount_one (ws : List WriteEv) (h : opCount ws = 1) :
    ws.any isOpeningWrite = true := by
  rw [List.any_eq_true]
  exact List.countP_pos_iff.mp (by rw [show ws.countP isOpeningWrite = opCount ws from rfl, h]; exact Nat.one_pos)

theorem openingFirst_append (ws : List WriteEv) (w : WriteEv)
    (hP : OpeningFirst ws)
    (hw : isContentWrite w = true → ws.any isOpeningWrite = true) :
    OpeningFirst (ws ++ [w]) := by
  intro n hc
  rcases le_or_lt n ws.length with h | h
  · rw [List.take_append_of_le_length h] at hc ⊢
    exact hP n hc
  · have hlen : (ws ++ [w]).length ≤ n := by
      simp only [List.length_append, List.length_singleton]
      omega
    rw [List.take_of_length_le hlen] at hc ⊢
    rw [List.any_append] at hc ⊢
    cases hca : ws.any isContentWrite with
    | true =>
      have := hP ws.length (by rw [List.take_length]; exact hca)
      rw [List.take_length] at this
      simp [this]
    | false =>
      rw [hca] at hc
      simp only [Bool.false_or, List.any_cons, List.any_nil, Bool.or_false] at hc
      simp [hw hc]

theorem winv_append_one (fc : Bool) (ws : List WriteEv) (w : WriteEv)
    (h : WInv fc ws) (ho : isOpeningWrite w = false) (hc : isContentWrite w = false) :
    WInv fc (ws ++ [w]) := by
  obtain ⟨h1, h2, h3⟩ := h
  refine ⟨?_, ?_, ?_⟩
  · intro hfc
    obtain ⟨a, b⟩ := h1 hfc
    constructor <;> simp [List.any_append, a, b, ho, hc]
  · intro hfc
    have := h2 hfc
    simp [opCount, List.countP_append, ho] at this ⊢
    simpa [opCount] using this
  · exact openingFirst_append ws w h3 (fun hcw => absurd hcw (by simp [hc]))

theorem winv_append_neutral (fc : Bool) (ws ns : List WriteEv)
    (h : WInv fc ws) (hn : ∀ w ∈ ns, isOpeningWrite w = false ∧ isContentWrite w = false) :
    WInv fc (ws ++ ns) := by
  induction ns generalizing ws with
  | nil => simpa using h
  | cons w ns ih =>
    have h1 : WInv fc (ws ++ [w]) :=
      winv_append_one fc ws w h (hn w (by simp)).1 (hn w (by simp)).2
    have := ih (ws ++ [w]) h1 (fun w' hw' => hn w' (by simp [hw']))
    simpa [List.append_assoc] using this

theorem contentFrame_not_opening (od : StreamOut)
    (h : od.message.content ≠ "" ∨ od.message.tool_calls.isSome) :
    isOpeningWrite (.frame (contentFrame od)) = false := by
  rcases h with h | h
  · simp [isOpeningWrite, contentFrame, h]
  · simp [isOpeningWrite, contentFrame]
    intro h1 h2
    rw [h2] at h
    simp at h

theorem opCount_eq_zero_of_not_any (ws : List WriteEv)
    (h : ws.any isOpeningWrite = false) : opCount ws = 0 := by
  rw [opCount, List.countP_eq_zero]
  intro a ha
  have := List.any_eq_false.mp h a ha
  simpa using this

theorem winv_open_step (fc : Bool) (ws : List WriteEv) (od : StreamOut)
    (h : WInv fc ws) :
    WInv false (if fc = true then ws ++ [.frame (openingFrame od)] else ws) := by
  obtain ⟨h1, h2, h3⟩ := h
  split
  · next hfc =>
      obtain ⟨ha, hb⟩ := h1 hfc
      refine ⟨(by intro hh; cases hh), ?_, ?_⟩
      · intro _
        rw [opCount, List.countP_append, show (ws.countP isOpeningWrite) = opCount ws from rfl,
          opCount_eq_zero_of_not_any ws ha]
        simp [isOpeningWrite, openingFrame]
      · exact openingFirst_append ws _ h3
          (fun hc => absurd hc (by simp [isContentWrite, openingFrame]))
  · next hfc =>
      have hfc' : fc = false := by
        cases fc
        · rfl
        · exact absurd rfl hfc
      exact ⟨(by intro hh; cases hh), (fun _ => h2 hfc'), h3⟩

theorem winv_false_append_content (ws : List WriteEv) (od : StreamOut)
    (hcond : od.message.content ≠ "" ∨ od.message.tool_calls.isSome)
    (h : WInv false ws) :
    WInv false (ws ++ [.frame (contentFrame od)]) := by
  obtain ⟨h1, h2, h3⟩ := h
  have hone := h2 rfl
  have hop : ws.any isOpeningWrite = true := any_of_opCount_one ws hone
  refine ⟨(by intro hh; cases hh), ?_, ?_⟩
  · intro _
    rw [opCount, List.countP_append, show (ws.countP isOpeningWrite) = opCount ws from rfl, hone]
    simp [contentFrame_not_opening od hcond]
  · exact openingFirst_append ws _ h3 (fun _ => hop)

theorem winv_false_append_done (ws : List WriteEv) (od : StreamOut)
    (h : WInv false ws) :
    WInv false (ws ++ [.frame (doneFrame od), .doneMark]) := by
  obtain ⟨h1, h2, h3⟩ := h
  have hone := h2 rfl
  have hop : ws.any isOpeningWrite = true := any_of_opCount_one ws hone
  have hdf : isOpeningWrite (.frame (doneFrame od)) = false := by
    simp [isOpeningWrite, doneFrame]
  have step1 : WInv false (ws ++ [.frame (doneFrame od)]) := by
    refine ⟨(by intro hh; cases hh), ?_, ?_⟩
    · intro _
      rw [opCount, List.countP_append, show (ws.countP isOpeningWrite) = opCount ws from rfl, hone]
      simp [hdf]
    · exact openingFirst_append ws _ h3 (fun _ => hop)
  have step2 := winv_append_one false (ws ++ [.frame (doneFrame od)]) .doneMark step1 rfl rfl
  simpa [List.append_assoc] using step2

theorem winv_open_true (ws : List WriteEv) (od : StreamOut) (h : WInv true ws) :
    WInv false (ws ++ [.frame (openingFrame od)]) := by
  obtain ⟨h1, h2, h3⟩ := h
  obtain ⟨ha, hb⟩ := h1 rfl
  refine ⟨(by intro hh; cases hh), ?_, ?_⟩
  · intro _
    rw [opCount, List.countP_append, show (ws.countP isOpeningWrite) = opCount ws from rfl,
      opCount_eq_zero_of_not_any ws ha]
    simp [isOpeningWrite, openingFrame]
  · exact openingFirst_append ws _ h3
      (fun hc => absurd hc (by simp [isContentWrite, openingFrame]))

theorem dataLine_inv (parse : String → Option UpResponse) (now : Nat)
    (s : Session) (l : String) (h : WInv s.firstChunk s.writes) :
    WInv (dataLine parse now s l).1.firstChunk (dataLine parse now s l).1.writes := by
  have hneutral2 : ∀ e : WriteEv, isOpeningWrite e = false → isContentWrite e = false →
      WInv s.firstChunk (s.writes ++ [e, WriteEv.doneMark]) := by
    intro e he1 he2
    refine winv_append_neutral _ _ _ h ?_
    intro w hw
    simp at hw
    rcases hw with rfl | rfl
    · exact ⟨he1, he2⟩
    · exact ⟨rfl, rfl⟩
  rw [dataLine]
  dsimp only
  split
  · exact h
  · split
    · split
      · exact h
      · exact winv_append_one _ _ _ h rfl rfl
    · split
      · exact hneutral2 .errParse rfl rfl
      · split
        · exact hneutral2 (.errUpstream _) rfl rfl
        · split
          · exact hneutral2 .errParse rfl rfl
          · next od heq =>
            split
            · split
              · next hcond =>
                split
                · next hfc =>
                  rw [hfc] at h
                  exact winv_false_append_done _ od
                    (winv_false_append_content _ od hcond (winv_open_true _ od h))
                · next hfc =>
                  rw [Bool.not_eq_true] at hfc
                  rw [hfc] at h
                  have hres := winv_false_append_done _ od
                    (winv_false_append_content _ od hcond h)
                  simpa [hfc] using hres
              · split
                · next hfc =>
                  rw [hfc] at h
                  exact winv_false_append_done _ od (winv_open_true _ od h)
                · next hfc =>
                  rw [Bool.not_eq_true] at hfc
                  rw [hfc] at h
                  have hres := winv_false_append_done _ od h
                  simpa [hfc] using hres
            · split
              · next hcond =>
                split
                · next hfc =>
                  rw [hfc] at h
                  exact winv_false_append_content _ od hcond (winv_open_true _ od h)
                · next hfc =>
                  rw [Bool.not_eq_true] at hfc
                  rw [hfc] at h
                  have hres := winv_false_append_content _ od hcond h
                  simpa [hfc] using hres
              · split
                · next hfc =>
                  rw [hfc] at h
                  exact winv_open_true _ od h
                · next hfc =>
                  rw [Bool.not_eq_true] at hfc
                  rw [hfc] at h
                  show WInv s.firstChunk s.writes
                  rw [hfc]
                  exact h

theorem runLines_inv (parse : String → Option UpResponse) (now : Nat) :
    ∀ (ls : List String) (s : Session), WInv s.firstChunk s.writes →
    WInv (runLines parse now s ls).firstChunk (runLines parse now s ls).writes
  | [], _, h => h
  | l :: ls, s, h => by
    rw [runLines]
    split
    · exact dataLine_inv parse now s l h
    · exact runLines_inv parse now ls _ (dataLine_inv parse now s l h)

theorem onData_inv (parse : String → Option UpResponse) (now : Nat)
    (s : Session) (c : String) (h : WInv s.firstChunk s.writes) :
    WInv (onData parse now s c).firstChunk (onData parse now s c).writes := by
  rw [onData]
  dsimp only
  split
  · exact h
  · exact runLines_inv parse now _ _ h

theorem foldChunks_inv (parse : String → Option UpResponse) (now : Nat) :
    ∀ (chunks : List String) (s : Session), WInv s.firstChunk s.writes →
    WInv ((chunks.map UpEv.chunk).foldl (stepEv parse now) s).firstChunk
      ((chunks.map UpEv.chunk).foldl (stepEv parse now) s).writes
  | [], _, h => h
  | c :: cs, s, h =>
    foldChunks_inv parse now cs (onData parse now s c) (onData_inv parse now s c h)

theorem initSession_inv : WInv initSession.firstChunk initSession.writes := by
  refine ⟨(fun _ => ⟨rfl, rfl⟩), (by intro hh; cases hh), ?_⟩
  intro n hc
  simp [initSession] at hc

/-- C2 (amended). Over any sequence of `'data'` chunk deliveries (any
parse function, any wall clock, any chunk strings), the synthetic opening
frame is written at most once, an opening frame precedes every content
frame in the trace, and as soon as any content frame has been written the
opening frame has been written exactly once.  (The original claim also
covered deltas that surface only in the residual line buffer at
end-of-stream; `c2_counterexample` shows the `'end'` handler emits those
without an opening frame, so the claim is restricted to the data path.) -/
theorem c2_amended (parse : String → Option UpResponse) (now : Nat)
    (chunks : List String) :
    opCount (runSession parse now (chunks.map UpEv.chunk)).writes ≤ 1 ∧
    OpeningFirst (runSession parse now (chunks.map UpEv.chunk)).writes ∧
    ((runSession parse now (chunks.map UpEv.chunk)).writes.any isContentWrite = true →
      opCount (runSession parse now (chunks.map UpEv.chunk)).writes = 1) := by
  have inv := foldChunks_inv parse now chunks initSession initSession_inv
  obtain ⟨h1, h2, h3⟩ := inv
  set sess := (chunks.map UpEv.chunk).foldl (stepEv parse now) initSession with hsess
  have hrun : runSession parse now (chunks.map UpEv.chunk) = sess := rfl
  rw [hrun]
  refine ⟨?_, h3, ?_⟩
  · cases hfc : sess.firstChunk with
    | true =>
      rw [opCount_eq_zero_of_not_any _ (h1 hfc).1]
      exact Nat.zero_le 1
    | false =>
      rw [h2 hfc]
  · intro hcont
    cases hfc : sess.firstChunk with
    | true => exact absurd hcont (by rw [(h1 hfc).2]; simp)
    | false => exact h2 hfc

/-- Witness for `c2_amended`: a concrete data chunk holding one content
delta, where the trace contains a content frame and thus exactly one
opening frame. -/
theorem c2_amended_witness :
    opCount (runSession parseCex 7 (["data: textB\n"].map UpEv.chunk)).writes = 1 :=
  (c2_amended parseCex 7 ["data: textB\n"]).2.2 (by decide)

/-- C10. Every response translator reads the first element of `choices`
unconditionally: on an upstream response whose `choices` array is absent
or empty, all three translators are undefined (`none` in this total
embedding) — the JS code would throw, and no branch inside the
translators guards against it. -/
theorem c10_choices_precondition (now : Nat) (r : UpResponse)
    (h : r.choices = none ∨ r.choices = some []) :
    translateOpenAIToOllamaChat r = none ∧
    translateOpenAIToOllamaGenerate r = none ∧
    translateOpenAIStreamToOllamaChat now r = none := by
  have hh : r.choices.bind List.head? = none := by
    rcases h with h | h <;> simp [h]
  refine ⟨?_, ?_, ?_⟩ <;>
    simp [translateOpenAIToOllamaChat, translateOpenAIToOllamaGenerate,
      translateOpenAIStreamToOllamaChat, hh]

/-- Witness for `c10_choices_precondition` at an upstream response with an
explicitly empty `choices` array. -/
theorem c10_choices_precondition_witness :
    translateOpenAIToOllamaChat { choices := some [] } = none ∧
    translateOpenAIToOllamaGenerate { choices := some [] } = none ∧
    translateOpenAIStreamToOllamaChat 0 { choices := some [] } = none :=
  c10_choices_precondition 0 { choices := some [] } (Or.inr rfl)

/-- C5. Token accounting of the non-streaming translators: a present
`usage` block wins (regardless of `timings`), otherwise `timings` with a
present `cache_n` supplies `cache_n` / `predicted_n` / their sum,
otherwise all three counts are zero.  Stated via `Option.map` so it
covers exactly the responses on which the translator is defined. -/
theorem c5_token_precedence :
    (∀ (r : UpResponse) (u : UsageBlock) (p c t : Nat),
      r.usage = some u → u.prompt_tokens = some p → u.completion_tokens = some c →
      u.total_tokens = some t →
      ((translateOpenAIToOllamaChat r).map fun o => (o.prompt_eval_count, o.eval_count, o.total_tokens)) =
        (translateOpenAIToOllamaChat r).map (fun _ => (p, c, t)) ∧
      ((translateOpenAIToOllamaGenerate r).map fun o => (o.prompt_eval_count, o.eval_count, o.total_tokens)) =
        (translateOpenAIToOllamaGenerate r).map (fun _ => (p, c, t))) ∧
    (∀ (r : UpResponse) (tm : TimingsBlock) (cn pn : Nat),
      r.usage = none → r.timings = some tm → tm.cache_n = some cn →
      tm.predicted_n = some pn →
      ((translateOpenAIToOllamaChat r).map fun o => (o.prompt_eval_count, o.eval_count, o.total_tokens)) =
        (translateOpenAIToOllamaChat r).map (fun _ => (cn, pn, cn + pn)) ∧
      ((translateOpenAIToOllamaGenerate r).map fun o => (o.prompt_eval_count, o.eval_count, o.total_tokens)) =
        (translateOpenAIToOllamaGenerate r).map (fun _ => (cn, pn, cn + pn))) ∧
    (∀ (r : UpResponse),
      r.usage = none → (r.timings.bind fun tm => tm.cache_n) = none →
      ((translateOpenAIToOllamaChat r).map fun o => (o.prompt_eval_count, o.eval_count, o.total_tokens)) =
        (translateOpenAIToOllamaChat r).map (fun _ => (0, 0, 0)) ∧
      ((translateOpenAIToOllamaGenerate r).map fun o => (o.prompt_eval_count, o.eval_count, o.total_tokens)) =
        (translateOpenAIToOllamaGenerate r).map (fun _ => (0, 0, 0))) := by
  refine ⟨?_, ?_, ?_⟩
  · intro r u p c t hu hp hc ht
    constructor
    · cases hch : r.choices.bind List.head? with
      | none => simp [translateOpenAIToOllamaChat, hch]
      | some ch =>
        cases hm : ch.message with
        | none => simp [translateOpenAIToOllamaChat, hch, hm]
        | some m => simp [translateOpenAIToOllamaChat, hch, hm, hu, hp, hc, ht]
    · cases hch : r.choices.bind List.head? with
      | none => simp [translateOpenAIToOllamaGenerate, hch]
      | some ch =>
        cases hm : ch.message with
        | none => simp [translateOpenAIToOllamaGenerate, hch, hm]
        | some m => simp [translateOpenAIToOllamaGenerate, hch, hm, hu, hp, hc, ht]
  · intro r tm cn pn hu htm hcn hpn
    constructor
    · cases hch : r.choices.bind List.head? with
      | none => simp [translateOpenAIToOllamaChat, hch]
      | some ch =>
        cases hm : ch.message with
        | none => simp [translateOpenAIToOllamaChat, hch, hm]
        | some m => simp [translateOpenAIToOllamaChat, hch, hm, hu, htm, hcn, hpn]
    · cases hch : r.choices.bind List.head? with
      | none => simp [translateOpenAIToOllamaGenerate, hch]
      | some ch =>
        cases hm : ch.message with
        | none => simp [translateOpenAIToOllamaGenerate, hch, hm]
        | some m => simp [translateOpenAIToOllamaGenerate, hch, hm, hu, htm, hcn, hpn]
  · intro r hu hnone
    constructor
    · cases hch : r.choices.bind List.head? with
      | none => simp [translateOpenAIToOllamaChat, hch]
      | some ch =>
        cases hm : ch.message with
        | none => simp [translateOpenAIToOllamaChat, hch, hm]
        | some m =>
          cases htm : r.timings with
          | none => simp [translateOpenAIToOllamaChat, hch, hm, hu, htm]
          | some tm =>
            have hcn : tm.cache_n = none := by
              rw [htm] at hnone
              simpa using hnone
            simp [translateOpenAIToOllamaChat, hch, hm, hu, htm, hcn]
    · cases hch : r.choices.bind List.head? with
      | none => simp [translateOpenAIToOllamaGenerate, hch]
      | some ch =>
        cases hm : ch.message with
        | none => simp [translateOpenAIToOllamaGenerate, hch, hm]
        | some m =>
          cases htm : r.timings with
          | none => simp [translateOpenAIToOllamaGenerate, hch, hm, hu, htm]
          | some tm =>
            have hcn : tm.cache_n = none := by
              rw [htm] at hnone
              simpa using hnone
            simp [translateOpenAIToOllamaGenerate, hch, hm, hu, htm, hcn]

/-- A complete upstream response carrying both a usage block and timings. -/
def respUsageBoth : UpResponse :=
  { model := "m", created := 2
  , choices := some [{ message := some { role := some "assistant", content := some "hi" }
                     , finish_reason := some "stop" }]
  , usage := some { prompt_tokens := some 5, completion_tokens := some 3, total_tokens := some 8 }
  , timings := some { cache_n := some 100, predicted_n := some 9 } }

/-- The same upstream response with the usage block removed. -/
def respTimingsOnly : UpResponse :=
  { respUsageBoth with usage := none }

/-- The same upstream response with neither usage nor timings. -/
def respNeither : UpResponse :=
  { respUsageBoth with usage := none, timings := none }

/-- Witness for `c5_token_precedence`: on a response with both `usage` and
`timings` the usage counts (5, 3, 8) win; with only timings the counts are
(100, 9, 109); with neither they are zero. -/
theorem c5_token_precedence_witness :
    ((translateOpenAIToOllamaChat respUsageBoth).map fun o => (o.prompt_eval_count, o.eval_count, o.total_tokens)) =
      (translateOpenAIToOllamaChat respUsageBoth).map (fun _ => (5, 3, 8)) ∧
    ((translateOpenAIToOllamaChat respTimingsOnly).map fun o => (o.prompt_eval_count, o.eval_count, o.total_tokens)) =
      (translateOpenAIToOllamaChat respTimingsOnly).map (fun _ => (100, 9, 100 + 9)) ∧
    ((translateOpenAIToOllamaGenerate respNeither).map fun o => (o.prompt_eval_count, o.eval_count, o.total_tokens)) =
      (translateOpenAIToOllamaGenerate respNeither).map (fun _ => (0, 0, 0)) :=
  ⟨(c5_token_precedence.1 respUsageBoth _ 5 3 8 rfl rfl rfl rfl).1,
   (c5_token_precedence.2.1 respTimingsOnly _ 100 9 rfl rfl rfl rfl).1,
   (c5_token_precedence.2.2 respNeither rfl rfl).2⟩

/-- Streaming-mode predicate following the spec's words, for comparison
with `isStreamingDecision`: streaming is forced off when the NORMALIZED
message list is empty. -/
def isStreamingSpec (req : OllamaRequest) (accept : String) : Bool :=
  (req.stream.getD false || strHas accept "text/event-stream") &&
    !(normalizeMessages req).isEmpty

/-- C4 counterexample. A request with `stream: true` and a plain `prompt`
but no `messages` field: its normalized message list is the non-empty
`[user "hi"]`, so the claim (and the spec) select streaming, but the code
tests the RAW `messages` field (`server.js` line 340) and forces
streaming off. -/
theorem c4_counterexample :
    isStreamingDecision { stream := some true, prompt := some "hi" } "" = false ∧
    isStreamingSpec { stream := some true, prompt := some "hi" } "" = true := by
  constructor
  · decide
  · decide

/-- C4 (amended). Streaming is selected iff the request asks for it (raw
`stream` flag, or `Accept` containing `text/event-stream`) and the raw
`messages` field is present and non-empty — the emptiness test is on the
raw request field, not on the normalizer's output. -/
theorem c4_amended (req : OllamaRequest) (accept : String) :
    isStreamingDecision req accept =
      ((req.stream.getD false || strHas accept "text/event-stream") &&
        !(req.messages.isNone || (req.messages.getD []).isEmpty)) := by
  unfold isStreamingDecision
  cases hb : (req.stream.getD false || strHas accept "text/event-stream") <;>
    cases hm : (req.messages.isNone || (req.messages.getD []).isEmpty) <;>
    simp [hb, hm]

/-- `JSON.stringify({error: X})` for an already-serialized upstream error
body `X`: the body is wrapped under an `error` key. -/
def jsonErrWrap (body : String) : String :=
  "\x7b\x22error\x22:" ++ body ++ "\x7d"

/-- Non-streaming propagation of an upstream non-2xx response
(`server.js` lines 311-314 and 596-599):
`res.status(error.response.status).json({ error: error.response.data })`. -/
def upstreamErrorReply (status : Nat) (body : String) : Nat × String :=
  (status, jsonErrWrap body)

/-- C6 counterexample. The claim says the upstream error body is passed
through unchanged; the code wraps it in an `error` field, so for a
concrete 401 body the client-visible body differs from the upstream
body. -/
theorem c6_counterexample :
    (upstreamErrorReply 401 "\x7b\x22message\x22:\x22bad key\x22\x7d").2 ≠
      "\x7b\x22message\x22:\x22bad key\x22\x7d" := by
  decide

/-- C6 (amended). The upstream status code is propagated unchanged, and
the client body is the upstream error body wrapped under an `error` key
(not the body itself). -/
theorem c6_amended (status : Nat) (body : String) :
    (upstreamErrorReply status body).1 = status ∧
    (upstreamErrorReply status body).2 = jsonErrWrap body :=
  ⟨rfl, rfl⟩

/-- Filter following the spec's words, for comparison with `msgFilter`:
keep precisely the entries whose `role` and `content` fields are both
present, verbatim. -/
def msgFilterSpec (items : List RawMessage) : List Message :=
  items.filterMap fun it =>
    match it.role, it.content with
    | some r, some c => some ⟨r, c⟩
    | _, _ => none

/-- C7 counterexample. An entry with `role` present and `content` present
but EMPTY is dropped by the code's truthiness test (`item.role &&
item.content`, `server.js` line 68), while the claim keeps every entry
whose fields are present: the normalized output differs from the claim's
filter on a concrete messages array. -/
theorem c7_counterexample :
    normalizeMessages { messages := some [⟨some "user", some ""⟩, ⟨some "user", some "hi"⟩] } ≠
      msgFilterSpec [⟨some "user", some ""⟩, ⟨some "user", some "hi"⟩] := by
  decide

/-- C7 (amended). For a request providing a `messages` array, the
normalized sequence equals the input filtered to entries whose `role` and
`content` are both present AND non-empty (JS truthiness), order preserved
and kept entries unchanged — provided the filtered list is non-empty
(otherwise the normalizer falls through to the later sources). -/
theorem c7_amended (req : OllamaRequest) (items : List RawMessage)
    (hm : req.messages = some items) (hne : msgFilter items ≠ []) :
    normalizeMessages req = msgFilter items := by
  have h1 : (msgFilter items).isEmpty = false := by
    cases hmf : msgFilter items with
    | nil => exact absurd hmf hne
    | cons a as => rfl
  simp [normalizeMessages, hm, h1]

/-- Witness for `c7_amended` at a one-entry messages array. -/
theorem c7_amended_witness :
    normalizeMessages { messages := some [⟨some "user", some "hi"⟩] } =
      msgFilter [⟨some "user", some "hi"⟩] :=
  c7_amended _ [⟨some "user", some "hi"⟩] rfl (by decide)

/-- C8 counterexample. With `repeat_penalty: 0` present, the claim demands
`frequency_penalty = 0 - 1`; the code's truthiness test (`server.js`
line 147) drops it.  With `presence_penalty: 0` present, the claim
demands the zero be preserved; `|| undefined` (line 148) drops it too. -/
theorem c8_counterexample :
    (translateOllamaToOpenAI
        { options := some { repeat_penalty := some 0, presence_penalty := some 0 } }).frequency_penalty ≠
      some ((0 : Rat) - 1) ∧
    (translateOllamaToOpenAI
        { options := some { repeat_penalty := some 0, presence_penalty := some 0 } }).presence_penalty ≠
      some 0 := by
  constructor
  · decide
  · decide

/-- C8 (amended). `frequency_penalty` is `repeat_penalty - 1` when the
repeat-penalty option is present and non-zero, and absent when the option
is absent OR zero; `temperature`, `max_tokens` and `top_p` pass through
verbatim (real zeros preserved, absent omitted); `presence_penalty`,
`tool_choice` and `response_format` are omitted when absent and
`presence_penalty` is also omitted when zero (JS truthiness). -/
theorem c8_amended (req : OllamaRequest) :
    ((req.options.bind fun o => o.repeat_penalty) = none →
      (translateOllamaToOpenAI req).frequency_penalty = none) ∧
    (∀ rp : Rat, (req.options.bind fun o => o.repeat_penalty) = some rp → rp ≠ 0 →
      (translateOllamaToOpenAI req).frequency_penalty = some (rp - 1)) ∧
    ((req.options.bind fun o => o.repeat_penalty) = some 0 →
      (translateOllamaToOpenAI req).frequency_penalty = none) ∧
    (translateOllamaToOpenAI req).temperature = (req.options.bind fun o => o.temperature) ∧
    (translateOllamaToOpenAI req).max_tokens = (req.options.bind fun o => o.num_predict) ∧
    (translateOllamaToOpenAI req).top_p = (req.options.bind fun o => o.top_p) ∧
    (∀ v : Rat, (req.options.bind fun o => o.presence_penalty) = some v → v ≠ 0 →
      (translateOllamaToOpenAI req).presence_penalty = some v) ∧
    ((req.options.bind fun o => o.presence_penalty) = some 0 →
      (translateOllamaToOpenAI req).presence_penalty = none) ∧
    ((req.options.bind fun o => o.presence_penalty) = none →
      (translateOllamaToOpenAI req).presence_penalty = none) ∧
    ((req.options.bind fun o => o.tool_choice) = none →
      (translateOllamaToOpenAI req).tool_choice = none) ∧
    ((req.options.bind fun o => o.response_format) = none →
      (translateOllamaToOpenAI req).response_format = none) := by
  refine ⟨?_, ?_, ?_, rfl, rfl, rfl, ?_, ?_, ?_, ?_, ?_⟩
  · intro h
    simp [translateOllamaToOpenAI, h]
  · intro rp h hne
    simp [translateOllamaToOpenAI, h, hne]
  · intro h
    simp [translateOllamaToOpenAI, h]
  · intro v h hne
    simp [translateOllamaToOpenAI, jsNumOrNone, h, hne]
  · intro h
    simp [translateOllamaToOpenAI, jsNumOrNone, h]
  · intro h
    simp [translateOllamaToOpenAI, jsNumOrNone, h]
  · intro h
    simp [translateOllamaToOpenAI, jsStrOrNone, h]
  · intro h
    simp [translateOllamaToOpenAI, jsStrOrNone, h]

/-- Witness for `c8_amended`: a request with `repeat_penalty: 3`,
`presence_penalty: 1/2` and `temperature: 0`. -/
theorem c8_amended_witness :
    (translateOllamaToOpenAI
        { options := some { repeat_penalty := some 3, presence_penalty := some (1/2), temperature := some 0 } }).frequency_penalty =
      some ((3 : Rat) - 1) ∧
    (translateOllamaToOpenAI
        { options := some { repeat_penalty := some 3, presence_penalty := some (1/2), temperature := some 0 } }).presence_penalty =
      some ((1 : Rat)/2) := by
  constructor
  · exact (c8_amended _).2.1 3 rfl (by norm_num)
  · exact (c8_amended _).2.2.2.2.2.2.1 (1/2) rfl (by norm_num)

/-- C9 counterexample. The claim says every tag-delimited span is trimmed
and emitted as one Message.  But when the opening tag stands alone on its
line, `currentContent` starts empty and the continuation branch
(`server.js` line 113, guarded by `currentContent !== ''`) drops every
following line, so the span `hello` of this prompt produces no Message at
all. -/
theorem c9_counterexample :
    parseTaggedPrompt "<user>\nhello\n</user>" = [] := by
  decide

/-- A tag-delimited span of the custom prompt format: the role, the text
that follows the opening tag on the same line, the continuation lines,
and whether an explicit closing-tag line ends the span (`closed = false`
models an unbalanced span flushed at end of input). -/
structure TagSpan where
  isUser : Bool
  first : String
  rest : List String
  closed : Bool
deriving DecidableEq, Repr

/-- Role string denoted by the span's tag. -/
def TagSpan.roleStr (sp : TagSpan) : String :=
  if sp.isUser then "user" else "assistant"

/-- The opening tag of the span. -/
def TagSpan.openTag (sp : TagSpan) : String :=
  if sp.isUser then "<user>" else "<assistant>"

/-- The closing tag of the span. -/
def TagSpan.closeTag (sp : TagSpan) : String :=
  if sp.isUser then "</user>" else "</assistant>"

/-- The lines the span contributes to the prompt. -/
def TagSpan.lines (sp : TagSpan) : List String :=
  (sp.openTag ++ sp.first) :: (sp.rest ++ (if sp.closed then [sp.closeTag] else []))

/-- A line that neither opens nor closes a span. -/
def plainLine (l : String) : Bool :=
  !strStarts l "<user>" && !strStarts l "<assistant>" &&
    l ≠ "</user>" && l ≠ "</assistant>"

/-- A well-formed span for the amended claim: non-empty text on the
opening-tag line, and continuation lines that are not tag lines. -/
def TagSpan.good (sp : TagSpan) : Prop :=
  sp.first ≠ "" ∧ ∀ l ∈ sp.rest, plainLine l = true

/-- The raw accumulated content of a span, exactly as the parser builds
it: the opening-line text, then each continuation line appended after a
newline. -/
def TagSpan.raw (sp : TagSpan) : String :=
  sp.rest.foldl (fun a l => a ++ "\n" ++ l) sp.first

/-- The Message the span denotes: its role and its trimmed raw content. -/
def TagSpan.msg (sp : TagSpan) : Message :=
  ⟨sp.roleStr, strTrim sp.raw⟩

/-- The flush of the parser state: emit the pending span when a role is
set and content is non-empty (the final step of `parseTaggedLines`). -/
def flushMsgs (st : TagState) : List Message :=
  if st.role.isSome ∧ st.content ≠ ""
  then st.msgs ++ [⟨st.role.getD "", strTrim st.content⟩]
  else st.msgs

theorem strStarts_append (p s : String) : strStarts (p ++ s) p = true := by
  show (p.data.isPrefixOf (p ++ s).data) = true
  rw [show (p ++ s).data = p.data ++ s.data from rfl, List.isPrefixOf_iff_prefix]
  exact List.prefix_append p.data s.data

theorem strStarts_assistant_not_user (s : String) :
    strStarts ("<assistant>" ++ s) "<user>" = false := by
  by_contra hcon
  rw [Bool.not_eq_false] at hcon
  have hcon' : "<user>".data <+: ("<assistant>" ++ s).data := by
    rw [← List.isPrefixOf_iff_prefix]
    exact hcon
  rw [show ("<assistant>" ++ s).data = '<' :: 'a' :: ("ssistant>".data ++ s.data) from rfl,
    show "<user>".data = '<' :: 'u' :: "ser>".data from rfl] at hcon'
  rw [List.cons_prefix_cons] at hcon'
  rw [List.cons_prefix_cons] at hcon'
  exact absurd hcon'.2.1 (by decide)

theorem strDrop_user (f : String) : strDrop ("<user>" ++ f) 6 = f := by
  cases f with
  | mk d =>
    show (⟨List.drop 6 ("<user>".data ++ d)⟩ : String) = ⟨d⟩
    rw [show (6 : Nat) = "<user>".data.length from rfl, List.drop_left]

theorem strDrop_assistant (f : String) : strDrop ("<assistant>" ++ f) 11 = f := by
  cases f with
  | mk d =>
    show (⟨List.drop 11 ("<assistant>".data ++ d)⟩ : String) = ⟨d⟩
    rw [show (11 : Nat) = "<assistant>".data.length from rfl, List.drop_left]

theorem str_append_nl_ne_empty (a b : String) : a ++ "\n" ++ b ≠ "" := by
  intro h
  have hd : (a ++ "\n" ++ b).data = [] := congrArg String.data h
  rw [show (a ++ "\n" ++ b).data = (a.data ++ ['\n']) ++ b.data from rfl] at hd
  simp at hd

theorem foldNl_ne_empty : ∀ (ls : List String) (c : String), c ≠ "" →
    ls.foldl (fun a l => a ++ "\n" ++ l) c ≠ ""
  | [], _, hc => hc
  | l :: ls, c, _ => foldNl_ne_empty ls (c ++ "\n" ++ l) (str_append_nl_ne_empty c l)

theorem tagStep_user_open (st : TagState) (f : String) :
    tagStep st ("<user>" ++ f) = ⟨some "user", f, flushMsgs st⟩ := by
  unfold tagStep
  rw [if_pos (strStarts_append "<user>" f)]
  rw [strDrop_user]
  rfl

theorem tagStep_assistant_open (st : TagState) (f : String) :
    tagStep st ("<assistant>" ++ f) = ⟨some "assistant", f, flushMsgs st⟩ := by
  unfold tagStep
  rw [if_neg (by rw [strStarts_assistant_not_user f]; exact Bool.false_ne_true)]
  rw [if_pos (strStarts_append "<assistant>" f)]
  rw [strDrop_assistant]
  rfl

theorem tagStep_plain (r : String) (c l : String) (msgs : List Message)
    (hp : plainLine l = true) (hc : c ≠ "") :
    tagStep ⟨some r, c, msgs⟩ l = ⟨some r, c ++ "\n" ++ l, msgs⟩ := by
  simp only [plainLine, Bool.and_eq_true, Bool.not_eq_true', decide_eq_true_eq] at hp
  obtain ⟨⟨⟨h1, h2⟩, h3⟩, h4⟩ := hp
  unfold tagStep
  rw [if_neg (by rw [h1]; exact Bool.false_ne_true)]
  rw [if_neg (by rw [h2]; exact Bool.false_ne_true)]
  rw [if_neg (by intro hor; rcases hor with hh | hh <;> [exact h3 hh; exact h4 hh])]
  rw [if_pos hc]

theorem tagStep_close_user (r : String) (c : String) (msgs : List Message) (hc : c ≠ "") :
    tagStep ⟨some r, c, msgs⟩ "</user>" =
      ⟨some r, "", msgs ++ [⟨r, strTrim c⟩]⟩ := by
  unfold tagStep
  rw [if_neg (by decide)]
  rw [if_neg (by decide)]
  rw [if_pos (Or.inl rfl)]
  rw [if_pos hc]
  rfl

theorem tagStep_close_assistant (r : String) (c : String) (msgs : List Message) (hc : c ≠ "") :
    tagStep ⟨some r, c, msgs⟩ "</assistant>" =
      ⟨some r, "", msgs ++ [⟨r, strTrim c⟩]⟩ := by
  unfold tagStep
  rw [if_neg (by decide)]
  rw [if_neg (by decide)]
  rw [if_pos (Or.inr rfl)]
  rw [if_pos hc]
  rfl

theorem foldTag_plain (r : String) :
    ∀ (ls : List String) (c : String) (msgs : List Message),
    (∀ l ∈ ls, plainLine l = true) → c ≠ "" →
    ls.foldl tagStep ⟨some r, c, msgs⟩ =
      ⟨some r, ls.foldl (fun a l => a ++ "\n" ++ l) c, msgs⟩
  | [], _, _, _, _ => rfl
  | l :: ls, c, msgs, hp, hc => by
    rw [List.foldl_cons, List.foldl_cons, tagStep_plain r c l msgs (hp l (by simp)) hc]
    exact foldTag_plain r ls (c ++ "\n" ++ l) msgs
      (fun x hx => hp x (by simp [hx])) (str_append_nl_ne_empty c l)

theorem foldTag_span (sp : TagSpan) (h : TagSpan.good sp) (st : TagState) :
    sp.lines.foldl tagStep st =
      ⟨some sp.roleStr, if sp.closed then "" else sp.raw,
        flushMsgs st ++ (if sp.closed then [sp.msg] else [])⟩ := by
  obtain ⟨hf, hrest⟩ := h
  cases hu : sp.isUser with
  | true =>
    have hopen : sp.openTag = "<user>" := by simp [TagSpan.openTag, hu]
    have hrole : sp.roleStr = "user" := by simp [TagSpan.roleStr, hu]
    have hcloseT : sp.closeTag = "</user>" := by simp [TagSpan.closeTag, hu]
    rw [TagSpan.lines, hopen, List.foldl_cons, tagStep_user_open]
    cases hcl : sp.closed with
    | false =>
      rw [show (if false = true then [sp.closeTag] else []) = ([] : List String) from rfl,
        List.append_nil]
      rw [foldTag_plain "user" sp.rest sp.first (flushMsgs st) hrest hf]
      rw [hrole,
        show (if false = true then "" else sp.raw) = sp.raw from rfl,
        show (if false = true then [sp.msg] else []) = ([] : List Message) from rfl,
        List.append_nil]
      rfl
    | true =>
      rw [show (if true = true then [sp.closeTag] else []) = [sp.closeTag] from rfl,
        hcloseT, List.foldl_append]
      rw [foldTag_plain "user" sp.rest sp.first (flushMsgs st) hrest hf]
      rw [show ∀ st' : TagState, List.foldl tagStep st' ["</user>"] = tagStep st' "</user>"
        from fun _ => rfl]
      rw [tagStep_close_user "user" _ _ (foldNl_ne_empty sp.rest sp.first hf)]
      rw [hrole,
        show (if true = true then "" else sp.raw) = "" from rfl,
        show (if true = true then [sp.msg] else []) = [sp.msg] from rfl,
        show sp.msg = ⟨"user", strTrim sp.raw⟩ from by rw [TagSpan.msg, hrole]]
      rfl
  | false =>
    have hopen : sp.openTag = "<assistant>" := by simp [TagSpan.openTag, hu]
    have hrole : sp.roleStr = "assistant" := by simp [TagSpan.roleStr, hu]
    have hcloseT : sp.closeTag = "</assistant>" := by simp [TagSpan.closeTag, hu]
    rw [TagSpan.lines, hopen, List.foldl_cons, tagStep_assistant_open]
    cases hcl : sp.closed with
    | false =>
      rw [show (if false = true then [sp.closeTag] else []) = ([] : List String) from rfl,
        List.append_nil]
      rw [foldTag_plain "assistant" sp.rest sp.first (flushMsgs st) hrest hf]
      rw [hrole,
        show (if false = true then "" else sp.raw) = sp.raw from rfl,
        show (if false = true then [sp.msg] else []) = ([] : List Message) from rfl,
        List.append_nil]
      rfl
    | true =>
      rw [show (if true = true then [sp.closeTag] else []) = [sp.closeTag] from rfl,
        hcloseT, List.foldl_append]
      rw [foldTag_plain "assistant" sp.rest sp.first (flushMsgs st) hrest hf]
      rw [show ∀ st' : TagState, List.foldl tagStep st' ["</assistant>"] = tagStep st' "</assistant>"
        from fun _ => rfl]
      rw [tagStep_close_assistant "assistant" _ _ (foldNl_ne_empty sp.rest sp.first hf)]
      rw [hrole,
        show (if true = true then "" else sp.raw) = "" from rfl,
        show (if true = true then [sp.msg] else []) = [sp.msg] from rfl,
        show sp.msg = ⟨"assistant", strTrim sp.raw⟩ from by rw [TagSpan.msg, hrole]]
      rfl

theorem foldTag_spans : ∀ (sps : List TagSpan) (st : TagState),
    (∀ sp ∈ sps, TagSpan.good sp) →
    flushMsgs (((sps.map TagSpan.lines).flatten).foldl tagStep st) =
      flushMsgs st ++ sps.map TagSpan.msg
  | [], st, _ => by simp
  | sp :: sps, st, h => by
    rw [List.map_cons, List.flatten_cons, List.foldl_append]
    rw [foldTag_span sp (h sp (by simp)) st]
    rw [foldTag_spans sps _ (fun x hx => h x (by simp [hx]))]
    have hflush : flushMsgs ⟨some sp.roleStr, if sp.closed then "" else sp.raw,
        flushMsgs st ++ (if sp.closed then [sp.msg] else [])⟩ = flushMsgs st ++ [sp.msg] := by
      obtain ⟨hf, -⟩ := h sp (by simp)
      cases hcl : sp.closed with
      | true =>
        rw [show (if true = true then "" else sp.raw) = "" from rfl,
          show (if true = true then [sp.msg] else []) = [sp.msg] from rfl]
        simp [flushMsgs]
      | false =>
        rw [show (if false = true then "" else sp.raw) = sp.raw from rfl,
          show (if false = true then [sp.msg] else []) = ([] : List Message) from rfl,
          List.append_nil]
        rw [show flushMsgs ⟨some sp.roleStr, sp.raw, flushMsgs st⟩ =
            flushMsgs st ++ [⟨sp.roleStr, strTrim sp.raw⟩] from by
          rw [flushMsgs]
          rw [if_pos ⟨rfl, foldNl_ne_empty sp.rest sp.first hf⟩]
          rfl]
        rfl
    rw [hflush, List.append_assoc]
    rw [List.map_cons]
    rfl

/-- C9 (amended). The delimited-prompt parser always terminates (it is a
total fold), and on any sequence of well-formed spans — each span's
opening tag followed by non-empty text on the same line, continuation
lines that are not tag lines, and an optional explicit closing tag
(`closed = false` covers unbalanced spans flushed at end of input with
the last known role) — the output is exactly one Message per span, in
source order, carrying the span's trimmed content.  A span whose opening
line has no text after the tag accumulates nothing and is dropped
(`c9_counterexample`). -/
theorem c9_amended (sps : List TagSpan) (h : ∀ sp ∈ sps, TagSpan.good sp) :
    parseTaggedLines (sps.map TagSpan.lines).flatten = sps.map TagSpan.msg := by
  show flushMsgs (((sps.map TagSpan.lines).flatten).foldl tagStep ⟨none, "", []⟩) =
    sps.map TagSpan.msg
  rw [foldTag_spans sps ⟨none, "", []⟩ h]
  simp [flushMsgs]

/-- Witness for `c9_amended`: a closed user span with a continuation line
followed by an unbalanced assistant span flushed at end of input. -/
theorem c9_amended_witness :
    parseTaggedLines (([⟨true, "hi", ["more"], true⟩,
        ⟨false, "yo", [], false⟩] : List TagSpan).map TagSpan.lines).flatten =
      ([⟨true, "hi", ["more"], true⟩, ⟨false, "yo", [], false⟩] : List TagSpan).map TagSpan.msg :=
  c9_amended [⟨true, "hi", ["more"], true⟩, ⟨false, "yo", [], false⟩] (by
    intro sp hsp
    simp only [List.mem_cons, List.mem_singleton, List.not_mem_nil, or_false] at hsp
    rcases hsp with rfl | rfl
    · exact ⟨by decide, by decide⟩
    · exact ⟨by decide, by simp⟩)
